import Mathlib

/-!
Verification of the webauthn-demo relying-party backend.

The repository contains several iterations of the same Express server
(src/backend/server.js, src/unnamed/part_001 .. part_004) together with a
React frontend (src/frontend/src/App.jsx, src/unnamed/part_000).  The
backend keeps all state in a single `users` Map from email to
`{ id, email, devices, currentChallenge }`, where `devices` is the list of
registered credentials `{ credentialID, credentialPublicKey, counter }`
and `currentChallenge` is the at-most-one pending WebAuthn challenge.

This file embeds the route handlers of the main backend variant
(src/unnamed/part_002), plus the points where src/backend/server.js and
the second document of src/unnamed/part_004 diverge from it, as pure
state-transition functions, and proves or refutes the frozen claims
about challenge consumption, counter monotonicity, credential-store
framing, duplicate credentials, error indistinguishability and the
frontend password fallback.

The cryptographic verification calls (`verifyRegistrationResponse`,
`verifyAuthenticationResponse` from the npm package
`@simplewebauthn/server`) are not part of the repository sources; they
are modelled from the spec where marked.
-/

set_option autoImplicit false

namespace WebauthnDemo

/-- Byte strings (credential ids, public keys, challenges) as lists of
byte values. -/
abbrev Bytes := List Nat

/-- One registered credential, as pushed onto `user.devices` by
/verify-registration in src/unnamed/part_002 lines 91-95. -/
structure Device where
  credentialID : Bytes
  credentialPublicKey : Bytes
  counter : Nat
deriving DecidableEq, Repr

/-- One entry of the backend `users` Map: src/unnamed/part_002 line 60
`{ id: userId, email, devices: [], currentChallenge: options.challenge }`.
A missing `currentChallenge` field (after `delete user.currentChallenge`)
is `none`. -/
structure User where
  id : String
  email : String
  devices : List Device
  currentChallenge : Option Bytes
deriving DecidableEq, Repr

/-- The `users` Map (src/unnamed/part_002 line 23) as an association
list keyed by email. -/
abbrev Users := List (String × User)

/-- Lookup in the `users` Map: `users.get(email)`. -/
def mapGet : Users → String → Option User
  | [], _ => none
  | (k, v) :: rest, e => if k = e then some v else mapGet rest e

/-- Update in the `users` Map: `users.set(email, u)` replaces the entry
for an existing key and appends otherwise. -/
def mapSet : Users → String → User → Users
  | [], e, u => [(e, u)]
  | (k, v) :: rest, e, u =>
      if k = e then (e, u) :: rest else (k, v) :: mapSet rest e u

/-- Membership test `users.has(email)`. -/
def mapHas (users : Users) (email : String) : Bool :=
  (mapGet users email).isSome

/-- Credentials currently stored for an identity (empty when the
identity is unknown). -/
def devicesOf (users : Users) (email : String) : List Device :=
  ((mapGet users email).map User.devices).getD []

/-- Pending challenge currently stored for an identity. -/
def challengeOf (users : Users) (email : String) : Option Bytes :=
  (mapGet users email).bind User.currentChallenge

/-- Stored signature counter of the credential with the given id under
the given identity, following the same first-match rule as
`user.devices.find(...)` in the source. -/
def counterOf (users : Users) (email : String) (cid : Bytes) : Option Nat :=
  (mapGet users email).bind fun u =>
    (u.devices.find? fun d => d.credentialID = cid).map Device.counter

/-- Number of stored credentials carrying the given credential id,
summed over every identity in the store. -/
def credIdCount (users : Users) (cid : Bytes) : Nat :=
  (users.map fun p => (p.2.devices.filter fun d => d.credentialID = cid).length).sum

/-- Error kinds of the modelled cryptographic verification, following
the taxonomy of the spec (section 7). -/
inductive VerifyError where
  | ClientDataInvalid
  | AuthenticatorDataInvalid
  | SignatureInvalid
  | PossibleCloneDetected
deriving DecidableEq, Repr

/-- Authenticator registration response as consumed by
`verifyRegistrationResponse`: the decoded clientData fields, abstract
validity of the remaining binary and cryptographic checks, and the
extracted registration info. -/
structure RegResponse where
  typ : String
  challenge : Bytes
  origin : String
  authDataValid : Bool
  attestationValid : Bool
  credentialID : Bytes
  credentialPublicKey : Bytes
  counter : Nat
deriving DecidableEq, Repr

/-- Registration info extracted on success (`verification.registrationInfo`). -/
structure RegistrationInfo where
  credentialID : Bytes
  credentialPublicKey : Bytes
  counter : Nat
deriving DecidableEq, Repr

/-- Authenticator assertion response as consumed by
`verifyAuthenticationResponse`: claimed credential id, decoded
clientData fields, abstract validity of authenticator data and
signature, and the reported signature counter. -/
structure AuthResponse where
  id : Bytes
  typ : String
  challenge : Bytes
  origin : String
  authDataValid : Bool
  signatureValid : Bool
  counter : Nat
deriving DecidableEq, Repr

/-- Modelled from the spec: the clone/replay guard of
`verifyAuthenticationResponse` (npm package `@simplewebauthn/server`,
not under src/).  Spec section 4.4 step f and section 8 (Monotonicity):
a received counter must strictly exceed a stored counter, except that a
pair of zero counters means the authenticator does not implement
counters and the check is skipped. -/
def counterOk (received stored : Nat) : Bool :=
  (received = 0 && stored = 0) || stored < received

/-- Modelled from the spec: `verifyRegistrationResponse` of
`@simplewebauthn/server` (not under src/), per spec section 4.3 steps
b-d: clientData type must be webauthn.create, challenge must equal the
expected challenge, origin must equal the configured origin; then the
authenticator-data checks and the attestation check, abstracted as the
`authDataValid` and `attestationValid` fields. -/
def verifyRegistrationResponse (response : RegResponse) (expectedChallenge : Bytes)
    (expectedOrigin : String) : Except VerifyError RegistrationInfo :=
  if response.typ = "webauthn.create" ∧ response.challenge = expectedChallenge ∧
      response.origin = expectedOrigin then
    if response.authDataValid then
      if response.attestationValid then
        .ok ⟨response.credentialID, response.credentialPublicKey, response.counter⟩
      else .error .AuthenticatorDataInvalid
    else .error .AuthenticatorDataInvalid
  else .error .ClientDataInvalid

/-- Modelled from the spec: `verifyAuthenticationResponse` of
`@simplewebauthn/server` (not under src/), per spec section 4.4 steps
c-f: clientData type must be webauthn.get, challenge equality, origin
membership, authenticator-data checks, signature check, then the clone
guard `counterOk` against the stored authenticator counter.  On success
it reports the received counter as `newCounter`. -/
def verifyAuthenticationResponse (response : AuthResponse) (expectedChallenge : Bytes)
    (expectedOrigin : String) (authenticator : Device) : Except VerifyError Nat :=
  if response.typ = "webauthn.get" ∧ response.challenge = expectedChallenge ∧
      response.origin = expectedOrigin then
    if response.authDataValid then
      if response.signatureValid then
        if counterOk response.counter authenticator.counter then
          .ok response.counter
        else .error .PossibleCloneDetected
      else .error .SignatureInvalid
    else .error .AuthenticatorDataInvalid
  else .error .ClientDataInvalid

/-- Result of POST /generate-registration-options. -/
inductive BeginRegResult where
  | ok (challenge : Bytes)
  | errEmailRequired
deriving DecidableEq, Repr

/-- Result of POST /generate-authentication-options, keeping the
externally observable HTTP status and error message. -/
inductive BeginAuthResult where
  | ok (challenge : Bytes)
  | err (status : Nat) (msg : String)
deriving DecidableEq, Repr

/-- Result of POST /verify-registration. -/
inductive FinishRegResult where
  | verified
  | errMissingData
  | errUserNotFound
  | errNoChallenge
  | rejected (e : VerifyError)
deriving DecidableEq, Repr

/-- Result of POST /verify-authentication. -/
inductive FinishAuthResult where
  | verified (email : String)
  | errMissingData
  | errUserNotFound
  | errNoChallenge
  | errUnknownDevice
  | rejected (e : VerifyError)
deriving DecidableEq, Repr

/-- Update the signature counter of the first device whose credential
id matches, mirroring the in-place mutation of the object returned by
`user.devices.find(...)` in the source. -/
def setCounterFirst : List Device → Bytes → Nat → List Device
  | [], _, _ => []
  | d :: ds, cid, c =>
      if d.credentialID = cid then { d with counter := c } :: ds
      else d :: setCounterFirst ds cid c

namespace Part002

/-- Allowed origin of the src/unnamed/part_002 variant. -/
def origin : String := "https://axltest.lat"

/-- POST /generate-registration-options, src/unnamed/part_002 lines
30-70.  The fresh random challenge and uuid are passed as parameters.
If the email is missing the request fails; otherwise a new user record
with an empty device list is created for an unknown email, and for a
known email only `currentChallenge` is overwritten (lines 59-63). -/
def generateRegistrationOptions (users : Users) (email : String)
    (userId : String) (challenge : Bytes) : Users × BeginRegResult :=
  if email = "" then (users, .errEmailRequired)
  else
    match mapGet users email with
    | none =>
        (mapSet users email ⟨userId, email, [], some challenge⟩, .ok challenge)
    | some u =>
        (mapSet users email { u with currentChallenge := some challenge }, .ok challenge)

/-- POST /verify-registration, src/unnamed/part_002 lines 72-105.  On
verified: push the new device and delete `currentChallenge` (lines
89-97).  On a failed verification the state is untouched and the
challenge stays stored. -/
def verifyRegistration (users : Users) (email : String)
    (response : Option RegResponse) : Users × FinishRegResult :=
  if email = "" then (users, .errMissingData)
  else
    match response with
    | none => (users, .errMissingData)
    | some r =>
        match mapGet users email with
        | none => (users, .errUserNotFound)
        | some user =>
            match user.currentChallenge with
            | none => (users, .errNoChallenge)
            | some expectedChallenge =>
                match verifyRegistrationResponse r expectedChallenge origin with
                | .error e => (users, .rejected e)
                | .ok info =>
                    (mapSet users email
                      { user with
                        devices := user.devices ++
                          [⟨info.credentialID, info.credentialPublicKey, info.counter⟩],
                        currentChallenge := none },
                     .verified)

/-- POST /generate-authentication-options, src/unnamed/part_002 lines
107-132.  Unknown user and user with an empty device list both answer
404 "Usuario no registrado" (lines 111-114). -/
def generateAuthenticationOptions (users : Users) (email : String)
    (challenge : Bytes) : Users × BeginAuthResult :=
  if email = "" then (users, .err 400 "Email requerido")
  else
    match mapGet users email with
    | none => (users, .err 404 "Usuario no registrado")
    | some user =>
        if user.devices.length = 0 then (users, .err 404 "Usuario no registrado")
        else
          (mapSet users email { user with currentChallenge := some challenge },
           .ok challenge)

/-- POST /verify-authentication, src/unnamed/part_002 lines 134-170.
On verified: set the counter of the matched device to `newCounter` and
delete `currentChallenge` (lines 159-162).  On a failed verification
the state is untouched and the challenge stays stored. -/
def verifyAuthentication (users : Users) (email : String)
    (response : Option AuthResponse) : Users × FinishAuthResult :=
  if email = "" then (users, .errMissingData)
  else
    match response with
    | none => (users, .errMissingData)
    | some r =>
        match mapGet users email with
        | none => (users, .errUserNotFound)
        | some user =>
            match user.currentChallenge with
            | none => (users, .errNoChallenge)
            | some expectedChallenge =>
                match user.devices.find? (fun d => d.credentialID = r.id) with
                | none => (users, .errUnknownDevice)
                | some device =>
                    match verifyAuthenticationResponse r expectedChallenge origin device with
                    | .error e => (users, .rejected e)
                    | .ok newCounter =>
                        (mapSet users email
                          { user with
                            devices := setCounterFirst user.devices r.id newCounter,
                            currentChallenge := none },
                         .verified email)

/-- Routes registered by src/unnamed/part_002 (lines 30, 72, 107, 134,
173), as method-path pairs in registration order. -/
def registeredRoutes : List (String × String) :=
  [("POST", "/generate-registration-options"),
   ("POST", "/verify-registration"),
   ("POST", "/generate-authentication-options"),
   ("POST", "/verify-authentication"),
   ("GET", "/api/health")]

end Part002

namespace ServerJs

/-- POST /generate-registration-options, src/backend/server.js lines
65-110: after generating options it unconditionally runs
`users.set(email, { id, email, devices: [], currentChallenge })`
(lines 96-104), replacing any existing record, so stored devices of
that identity are discarded. -/
def generateRegistrationOptions (users : Users) (email : String)
    (userId : String) (challenge : Bytes) : Users × BeginRegResult :=
  if email = "" then (users, .errEmailRequired)
  else (mapSet users email ⟨userId, email, [], some challenge⟩, .ok challenge)

/-- Routes registered by src/backend/server.js (app.post and app.get
calls at lines 31, 65, 111, 144), in registration order.  There is no
registration for /generate-authentication-options. -/
def registeredRoutes : List (String × String) :=
  [("POST", "/verify-registration"),
   ("POST", "/generate-registration-options"),
   ("POST", "/verify-authentication"),
   ("GET", "/api/health")]

/-- The apiRoutes allow-list inside the production fallback middleware
of src/backend/server.js (lines 163-169 and 185-191). -/
def fallbackApiRoutes : List String :=
  ["/generate-registration-options",
   "/verify-registration",
   "/generate-authentication-options",
   "/verify-authentication",
   "/api/health"]

end ServerJs

namespace Part004

/-- POST /generate-authentication-options of the second server variant
inside src/unnamed/part_004 (lines 321-362): an unknown user answers
404 "Usuario no registrado" (line 331) while a known user with zero
devices answers 404 "Usuario no tiene dispositivos registrados"
(line 339). -/
def generateAuthenticationOptions (users : Users) (email : String)
    (challenge : Bytes) : Users × BeginAuthResult :=
  match mapGet users email with
  | none => (users, .err 404 "Usuario no registrado")
  | some user =>
      if user.devices.length = 0 then
        (users, .err 404 "Usuario no tiene dispositivos registrados")
      else
        (mapSet users email { user with currentChallenge := some challenge },
         .ok challenge)

end Part004

/-- Status message produced by the `loginPassword` handler of
src/frontend/src/App.jsx lines 147-153: the entered password is
compared against the hardcoded string "123456" and no per-email secret
is consulted. -/
def loginPassword (email password : String) : String :=
  if password = "123456" then "✅ Bienvenido (con contraseña), " ++ email ++ "!"
  else "❌ Contraseña incorrecta"

/-! ## Concrete fixtures used by counterexamples and witnesses -/

/-- Store with one identity owning one credential (id [1], counter 0)
and a pending challenge [9]. -/
def demoUsers0 : Users :=
  [("a@x.com", ⟨"u1", "a@x.com", [⟨[1], [2], 0⟩], some [9]⟩)]

/-- Store with one identity owning one credential (id [1], counter 5)
and a pending challenge [9]. -/
def demoUsers5 : Users :=
  [("a@x.com", ⟨"u1", "a@x.com", [⟨[1], [2], 5⟩], some [9]⟩)]

/-- Store with one identity owning one credential and no pending
challenge. -/
def demoUsersIdle : Users :=
  [("a@x.com", ⟨"u1", "a@x.com", [⟨[1], [2], 0⟩], none⟩)]

/-- Store where identity b@x.com already owns the credential id [1]
and identity a@x.com has a pending registration challenge [9]. -/
def demoUsersDup : Users :=
  [("b@x.com", ⟨"u0", "b@x.com", [⟨[1], [2], 0⟩], none⟩),
   ("a@x.com", ⟨"u1", "a@x.com", [], some [9]⟩)]

/-! ## Helper lemmas about the store embedding -/

theorem mapGet_mapSet_self (m : Users) (k : String) (v : User) :
    mapGet (mapSet m k v) k = some v := by
  induction m with
  | nil => simp [mapSet, mapGet]
  | cons p rest ih =>
      obtain ⟨k1, v1⟩ := p
      by_cases h : k1 = k
      · subst h; simp [mapSet, mapGet]
      · simp [mapSet, mapGet, h, ih]

theorem mapGet_mapSet_ne (m : Users) (k k2 : String) (v : User) (h : k2 ≠ k) :
    mapGet (mapSet m k v) k2 = mapGet m k2 := by
  have h3 : ¬k = k2 := fun he => h he.symm
  induction m with
  | nil => simp [mapSet, mapGet, h3]
  | cons p rest ih =>
      obtain ⟨k1, v1⟩ := p
      by_cases h1 : k1 = k
      · subst h1
        simp [mapSet, mapGet, h3]
      · simp only [mapSet, if_neg h1]
        by_cases h2 : k1 = k2
        · subst h2; simp [mapGet]
        · simp [mapGet, h2, ih]

theorem find?_setCounterFirst (ds : List Device) (cid : Bytes) (c : Nat) (d : Device)
    (h : ds.find? (fun x => x.credentialID = cid) = some d) :
    (setCounterFirst ds cid c).find? (fun x => x.credentialID = cid) =
      some { d with counter := c } := by
  induction ds with
  | nil => simp [List.find?] at h
  | cons a as ih =>
      by_cases ha : a.credentialID = cid
      · simp [List.find?_cons, ha] at h
        subst h
        simp [setCounterFirst, ha, List.find?_cons]
      · simp [List.find?_cons, ha] at h
        simp [setCounterFirst, ha, List.find?_cons, ih h]

theorem verifyRegistrationResponse_ok (r : RegResponse) (ch : Bytes) (o : String)
    (h1 : r.typ = "webauthn.create") (h2 : r.challenge = ch) (h3 : r.origin = o)
    (h4 : r.authDataValid = true) (h5 : r.attestationValid = true) :
    verifyRegistrationResponse r ch o =
      .ok ⟨r.credentialID, r.credentialPublicKey, r.counter⟩ := by
  unfold verifyRegistrationResponse
  rw [if_pos ⟨h1, h2, h3⟩, if_pos h4, if_pos h5]

theorem verifyRegistrationResponse_ok_inv (r : RegResponse) (ch : Bytes) (o : String)
    (info : RegistrationInfo) (h : verifyRegistrationResponse r ch o = .ok info) :
    r.typ = "webauthn.create" ∧ r.challenge = ch ∧ r.origin = o ∧
    r.authDataValid = true ∧ r.attestationValid = true ∧
    info = ⟨r.credentialID, r.credentialPublicKey, r.counter⟩ := by
  unfold verifyRegistrationResponse at h
  split at h
  · rename_i hcl
    split at h
    · split at h
      · cases h
        exact ⟨hcl.1, hcl.2.1, hcl.2.2, by assumption, by assumption, rfl⟩
      · cases h
    · cases h
  · cases h

theorem verifyRegistrationResponse_challenge_mismatch (r : RegResponse) (ch : Bytes)
    (o : String) (h : r.challenge ≠ ch) :
    verifyRegistrationResponse r ch o = .error .ClientDataInvalid := by
  unfold verifyRegistrationResponse
  rw [if_neg]
  intro hc
  exact h hc.2.1

theorem verifyAuthenticationResponse_ok (r : AuthResponse) (ch : Bytes) (o : String)
    (device : Device) (h1 : r.typ = "webauthn.get") (h2 : r.challenge = ch)
    (h3 : r.origin = o) (h4 : r.authDataValid = true) (h5 : r.signatureValid = true)
    (h6 : counterOk r.counter device.counter = true) :
    verifyAuthenticationResponse r ch o device = .ok r.counter := by
  unfold verifyAuthenticationResponse
  rw [if_pos ⟨h1, h2, h3⟩, if_pos h4, if_pos h5, if_pos h6]

theorem verifyAuthenticationResponse_ok_inv (r : AuthResponse) (ch : Bytes) (o : String)
    (device : Device) (n : Nat) (h : verifyAuthenticationResponse r ch o device = .ok n) :
    r.typ = "webauthn.get" ∧ r.challenge = ch ∧ r.origin = o ∧
    r.authDataValid = true ∧ r.signatureValid = true ∧
    counterOk r.counter device.counter = true ∧ n = r.counter := by
  unfold verifyAuthenticationResponse at h
  split at h
  · rename_i hcl
    split at h
    · split at h
      · split at h
        · cases h
          exact ⟨hcl.1, hcl.2.1, hcl.2.2, by assumption, by assumption, by assumption, rfl⟩
        · cases h
      · cases h
    · cases h
  · cases h

theorem verifyAuthenticationResponse_clone (r : AuthResponse) (ch : Bytes) (o : String)
    (device : Device) (h1 : r.typ = "webauthn.get") (h2 : r.challenge = ch)
    (h3 : r.origin = o) (h4 : r.authDataValid = true) (h5 : r.signatureValid = true)
    (h6 : counterOk r.counter device.counter = false) :
    verifyAuthenticationResponse r ch o device = .error .PossibleCloneDetected := by
  unfold verifyAuthenticationResponse
  rw [if_pos ⟨h1, h2, h3⟩, if_pos h4, if_pos h5, if_neg (by simp [h6])]

theorem verifyAuthentication_state (users : Users) (email : String)
    (r : Option AuthResponse) :
    (Part002.verifyAuthentication users email r).1 = users ∨
    (Part002.verifyAuthentication users email r).2 = .verified email := by
  unfold Part002.verifyAuthentication
  by_cases h1 : email = ""
  · simp [h1]
  · rw [if_neg h1]
    cases r with
    | none => simp
    | some rr =>
        cases hu : mapGet users email with
        | none => simp [hu]
        | some user =>
            simp only [hu]
            cases hc : user.currentChallenge with
            | none => simp [hc]
            | some ch =>
                simp only [hc]
                cases hd : user.devices.find? (fun d => d.credentialID = rr.id) with
                | none => simp [hd]
                | some device =>
                    simp only [hd]
                    cases hv : verifyAuthenticationResponse rr ch Part002.origin device with
                    | error e => simp [hv]
                    | ok n => simp [hv]

theorem verifyAuthentication_verified_inv (users : Users) (email : String)
    (r : AuthResponse) (e2 : String)
    (h : (Part002.verifyAuthentication users email (some r)).2 = .verified e2) :
    e2 = email ∧ ¬email = "" ∧ ∃ user device,
      mapGet users email = some user ∧
      user.currentChallenge = some r.challenge ∧
      user.devices.find? (fun d => d.credentialID = r.id) = some device ∧
      r.typ = "webauthn.get" ∧ r.origin = Part002.origin ∧
      r.authDataValid = true ∧ r.signatureValid = true ∧
      counterOk r.counter device.counter = true ∧
      (Part002.verifyAuthentication users email (some r)).1 =
        mapSet users email
          { user with
            devices := setCounterFirst user.devices r.id r.counter,
            currentChallenge := none } := by
  unfold Part002.verifyAuthentication at h ⊢
  by_cases h1 : email = ""
  · rw [if_pos h1] at h
    simp at h
  · rw [if_neg h1] at h ⊢
    cases hu : mapGet users email with
    | none => simp [hu] at h
    | some user =>
        simp only [hu] at h ⊢
        cases hc : user.currentChallenge with
        | none => simp [hc] at h
        | some ch =>
            simp only [hc] at h ⊢
            cases hd : user.devices.find? (fun d => d.credentialID = r.id) with
            | none => simp [hd] at h
            | some device =>
                simp only [hd] at h ⊢
                cases hv : verifyAuthenticationResponse r ch Part002.origin device with
                | error e => simp [hv] at h
                | ok n =>
                    simp only [hv] at h ⊢
                    simp only [FinishAuthResult.verified.injEq] at h
                    obtain ⟨ht, hch, ho, ha, hs, hk, hn⟩ :=
                      verifyAuthenticationResponse_ok_inv r ch Part002.origin device n hv
                    subst hch
                    subst hn
                    exact ⟨h.symm, h1, user, device, rfl, hc, hd, ht, ho, ha, hs, hk, rfl⟩

theorem verifyRegistration_state (users : Users) (email : String)
    (r : Option RegResponse) :
    (Part002.verifyRegistration users email r).1 = users ∨
    (Part002.verifyRegistration users email r).2 = .verified := by
  unfold Part002.verifyRegistration
  by_cases h1 : email = ""
  · simp [h1]
  · rw [if_neg h1]
    cases r with
    | none => simp
    | some rr =>
        cases hu : mapGet users email with
        | none => simp [hu]
        | some user =>
            simp only [hu]
            cases hc : user.currentChallenge with
            | none => simp [hc]
            | some ch =>
                simp only [hc]
                cases hv : verifyRegistrationResponse rr ch Part002.origin with
                | error e => simp [hv]
                | ok info => simp [hv]

theorem verifyRegistration_verified_inv (users : Users) (email : String)
    (r : RegResponse)
    (h : (Part002.verifyRegistration users email (some r)).2 = .verified) :
    ¬email = "" ∧ ∃ user,
      mapGet users email = some user ∧
      user.currentChallenge = some r.challenge ∧
      r.typ = "webauthn.create" ∧ r.origin = Part002.origin ∧
      r.authDataValid = true ∧ r.attestationValid = true ∧
      (Part002.verifyRegistration users email (some r)).1 =
        mapSet users email
          { user with
            devices := user.devices ++
              [⟨r.credentialID, r.credentialPublicKey, r.counter⟩],
            currentChallenge := none } := by
  unfold Part002.verifyRegistration at h ⊢
  by_cases h1 : email = ""
  · rw [if_pos h1] at h
    simp at h
  · rw [if_neg h1] at h ⊢
    cases hu : mapGet users email with
    | none => simp [hu] at h
    | some user =>
        simp only [hu] at h ⊢
        cases hc : user.currentChallenge with
        | none => simp [hc] at h
        | some ch =>
            simp only [hc] at h ⊢
            cases hv : verifyRegistrationResponse r ch Part002.origin with
            | error e => simp [hv] at h
            | ok info =>
                simp only [hv] at h ⊢
                obtain ⟨ht, hch, ho, ha, hb, hinfo⟩ :=
                  verifyRegistrationResponse_ok_inv r ch Part002.origin info hv
                subst hch
                subst hinfo
                exact ⟨h1, user, rfl, hc, ht, ho, ha, hb, rfl⟩

theorem verifyAuthentication_run (users : Users) (email : String) (r : AuthResponse)
    (user : User) (device : Device)
    (h1 : ¬email = "") (hu : mapGet users email = some user)
    (hc : user.currentChallenge = some r.challenge)
    (hd : user.devices.find? (fun d => d.credentialID = r.id) = some device) :
    Part002.verifyAuthentication users email (some r) =
      (match verifyAuthenticationResponse r r.challenge Part002.origin device with
       | .error e => (users, .rejected e)
       | .ok n =>
           (mapSet users email
             { user with
               devices := setCounterFirst user.devices r.id n,
               currentChallenge := none },
            .verified email)) := by
  unfold Part002.verifyAuthentication
  rw [if_neg h1]
  simp only [hu, hc, hd]

theorem verifyRegistration_run (users : Users) (email : String) (r : RegResponse)
    (user : User) (ch : Bytes)
    (h1 : ¬email = "") (hu : mapGet users email = some user)
    (hc : user.currentChallenge = some ch) :
    Part002.verifyRegistration users email (some r) =
      (match verifyRegistrationResponse r ch Part002.origin with
       | .error e => (users, .rejected e)
       | .ok info =>
           (mapSet users email
             { user with
               devices := user.devices ++
                 [⟨info.credentialID, info.credentialPublicKey, info.counter⟩],
               currentChallenge := none },
            .verified)) := by
  unfold Part002.verifyRegistration
  rw [if_neg h1]
  simp only [hu, hc]

theorem generateRegistrationOptions_existing (users : Users) (email uid : String)
    (ch : Bytes) (user : User) (h1 : ¬email = "") (hu : mapGet users email = some user) :
    Part002.generateRegistrationOptions users email uid ch =
      (mapSet users email { user with currentChallenge := some ch }, .ok ch) := by
  unfold Part002.generateRegistrationOptions
  rw [if_neg h1]
  simp only [hu]

theorem generateAuthenticationOptions_existing (users : Users) (email : String)
    (ch : Bytes) (user : User) (h1 : ¬email = "") (hu : mapGet users email = some user)
    (hne : ¬user.devices.length = 0) :
    Part002.generateAuthenticationOptions users email ch =
      (mapSet users email { user with currentChallenge := some ch }, .ok ch) := by
  unfold Part002.generateAuthenticationOptions
  rw [if_neg h1]
  simp only [hu]
  rw [if_neg hne]

theorem beginReg_then_get (users : Users) (email uid : String) (ch : Bytes)
    (h1 : ¬email = "") :
    ∃ u, mapGet (Part002.generateRegistrationOptions users email uid ch).1 email = some u ∧
      u.currentChallenge = some ch := by
  unfold Part002.generateRegistrationOptions
  rw [if_neg h1]
  cases hu : mapGet users email with
  | none =>
      refine ⟨⟨uid, email, [], some ch⟩, ?_, rfl⟩
      simp only [hu]
      exact mapGet_mapSet_self users email ⟨uid, email, [], some ch⟩
  | some u =>
      refine ⟨{ u with currentChallenge := some ch }, ?_, rfl⟩
      simp only [hu]
      exact mapGet_mapSet_self users email { u with currentChallenge := some ch }

theorem welcomeMsg_ne_failureMsg (email : String) :
    "✅ Bienvenido (con contraseña), " ++ email ++ "!" ≠ "❌ Contraseña incorrecta" := by
  intro h
  have h2 := congrArg String.length h
  rw [String.length_append, String.length_append] at h2
  have ha : ("✅ Bienvenido (con contraseña), " : String).length = 31 := by rfl
  have hb : ("❌ Contraseña incorrecta" : String).length = 23 := by rfl
  have hc : ("!" : String).length = 1 := by rfl
  omega

/-! ## Claims -/

/-- C10: for every email and every entered password, the frontend
password login path reports success (the welcome status message) if and
only if the entered password equals the hardcoded string "123456", and
reports the failure message otherwise; no per-email secret is
consulted, so the same password succeeds for every email. -/
theorem C10_password_login_is_hardcoded (email password : String) :
    (loginPassword email password =
        "✅ Bienvenido (con contraseña), " ++ email ++ "!" ↔ password = "123456") ∧
    (loginPassword email password = "❌ Contraseña incorrecta" ↔ password ≠ "123456") := by
  unfold loginPassword
  by_cases h : password = "123456"
  · simp [h, welcomeMsg_ne_failureMsg email]
  · simp [h]
    intro he
    exact welcomeMsg_ne_failureMsg email he.symm

/-- C9: the four ceremony operations are not all reachable as defined
routes of every server variant.  src/unnamed/part_002 registers all
four POST routes, but src/backend/server.js never registers
POST /generate-authentication-options even though that path appears in
its own fallback apiRoutes allow-list (and is called by the frontend),
so on that variant the route falls through to a 404. -/
theorem C9_generate_authentication_options_route_missing_in_server_js :
    (("POST", "/generate-authentication-options") ∉ ServerJs.registeredRoutes) ∧
    ("/generate-authentication-options" ∈ ServerJs.fallbackApiRoutes) ∧
    (("POST", "/generate-registration-options") ∈ Part002.registeredRoutes) ∧
    (("POST", "/verify-registration") ∈ Part002.registeredRoutes) ∧
    (("POST", "/generate-authentication-options") ∈ Part002.registeredRoutes) ∧
    (("POST", "/verify-authentication") ∈ Part002.registeredRoutes) := by
  decide

/-- C3: begin_registration is not credential-store neutral in every
variant.  For an identity that already owns a registered credential,
POST /generate-registration-options of src/backend/server.js replaces
the whole user record with one whose device list is empty, erasing the
stored credential, while the src/unnamed/part_002 variant leaves the
device list intact. -/
theorem C3_server_js_begin_registration_erases_credentials :
    devicesOf
        (ServerJs.generateRegistrationOptions
          [("a@x.com", ⟨"u1", "a@x.com", [⟨[1], [2], 5⟩], none⟩)]
          "a@x.com" "u2" [7]).1 "a@x.com" = [] ∧
    devicesOf
        (Part002.generateRegistrationOptions
          [("a@x.com", ⟨"u1", "a@x.com", [⟨[1], [2], 5⟩], none⟩)]
          "a@x.com" "u2" [7]).1 "a@x.com" = [⟨[1], [2], 5⟩] ∧
    (ServerJs.generateRegistrationOptions
        [("a@x.com", ⟨"u1", "a@x.com", [⟨[1], [2], 5⟩], none⟩)]
        "a@x.com" "u2" [7]).2 = .ok [7] := by
  decide

/-- C1 counterexample: in src/unnamed/part_002, a verify-authentication
attempt that fails cryptographic verification (invalid signature) does
NOT consume the pending challenge: the state is unchanged, the
challenge is still stored, and resubmitting the same response is
re-checked against the same challenge (failing again with the same
verification error) instead of failing with the no-pending-challenge
error. -/
theorem C1_failed_attempt_keeps_challenge :
    (Part002.verifyAuthentication demoUsers0 "a@x.com"
        (some ⟨[1], "webauthn.get", [9], "https://axltest.lat", true, false, 1⟩)).2 =
      .rejected .SignatureInvalid ∧
    (Part002.verifyAuthentication demoUsers0 "a@x.com"
        (some ⟨[1], "webauthn.get", [9], "https://axltest.lat", true, false, 1⟩)).1 =
      demoUsers0 ∧
    challengeOf
        (Part002.verifyAuthentication demoUsers0 "a@x.com"
          (some ⟨[1], "webauthn.get", [9], "https://axltest.lat", true, false, 1⟩)).1
        "a@x.com" = some [9] ∧
    (Part002.verifyAuthentication
        (Part002.verifyAuthentication demoUsers0 "a@x.com"
          (some ⟨[1], "webauthn.get", [9], "https://axltest.lat", true, false, 1⟩)).1
        "a@x.com"
        (some ⟨[1], "webauthn.get", [9], "https://axltest.lat", true, false, 1⟩)).2 ≠
      .errNoChallenge := by
  decide

/-- C1 amended: the pending challenge is deleted only when verification
succeeds.  A finish step whose verification is rejected leaves the
whole store (challenge included) unchanged, so the response is
re-checked on resubmission; only after a successful finish does a
resubmission fail with the no-pending-challenge error.  Holds for both
verify-registration and verify-authentication of src/unnamed/part_002. -/
theorem C1_amended_challenge_deleted_only_on_success (users : Users) (email : String)
    (ra : AuthResponse) (rr : RegResponse) :
    (∀ e, (Part002.verifyAuthentication users email (some ra)).2 = .rejected e →
        (Part002.verifyAuthentication users email (some ra)).1 = users) ∧
    ((Part002.verifyAuthentication users email (some ra)).2 = .verified email →
        challengeOf (Part002.verifyAuthentication users email (some ra)).1 email = none ∧
        (Part002.verifyAuthentication
            (Part002.verifyAuthentication users email (some ra)).1 email (some ra)).2 =
          .errNoChallenge) ∧
    (∀ e, (Part002.verifyRegistration users email (some rr)).2 = .rejected e →
        (Part002.verifyRegistration users email (some rr)).1 = users) ∧
    ((Part002.verifyRegistration users email (some rr)).2 = .verified →
        challengeOf (Part002.verifyRegistration users email (some rr)).1 email = none ∧
        (Part002.verifyRegistration
            (Part002.verifyRegistration users email (some rr)).1 email (some rr)).2 =
          .errNoChallenge) := by
  refine ⟨?_, ?_, ?_, ?_⟩
  · intro e he
    rcases verifyAuthentication_state users email (some ra) with hs | hs
    · exact hs
    · rw [he] at hs
      simp at hs
  · intro hv
    obtain ⟨he2, h1, user, device, hu, hc, hd, ht, ho, ha, hs2, hk, hst⟩ :=
      verifyAuthentication_verified_inv users email ra email hv
    constructor
    · simp [challengeOf, hst, mapGet_mapSet_self]
    · rw [hst]
      unfold Part002.verifyAuthentication
      rw [if_neg h1]
      simp [mapGet_mapSet_self]
  · intro e he
    rcases verifyRegistration_state users email (some rr) with hs | hs
    · exact hs
    · rw [he] at hs
      simp at hs
  · intro hv
    obtain ⟨h1, user, hu, hc, ht, ho, ha, hb, hst⟩ :=
      verifyRegistration_verified_inv users email rr hv
    constructor
    · simp [challengeOf, hst, mapGet_mapSet_self]
    · rw [hst]
      unfold Part002.verifyRegistration
      rw [if_neg h1]
      simp [mapGet_mapSet_self]

/-- C1 amended witness: at a concrete store with a pending challenge, a
rejected verify-authentication leaves the store unchanged. -/
theorem C1_amended_witness :
    (Part002.verifyAuthentication demoUsers0 "a@x.com"
        (some ⟨[1], "webauthn.get", [9], "https://axltest.lat", true, false, 1⟩)).1 =
      demoUsers0 :=
  (C1_amended_challenge_deleted_only_on_success demoUsers0 "a@x.com"
      ⟨[1], "webauthn.get", [9], "https://axltest.lat", true, false, 1⟩
      ⟨"webauthn.create", [9], "https://axltest.lat", true, true, [3], [4], 0⟩).1
    .SignatureInvalid (by decide)

/-- C2: counter monotonicity of verify-authentication in
src/unnamed/part_002, with the clone guard of
verifyAuthenticationResponse modelled from the spec.  For a credential
whose stored counter N is positive and an otherwise valid response
reporting counter M: if M <= N, the request is rejected with
PossibleCloneDetected and the store (hence the stored counter N) is
unchanged; if M > N, the request verifies and the stored counter
becomes M. -/
theorem C2_counter_monotonicity (users : Users) (email : String) (r : AuthResponse)
    (user : User) (device : Device)
    (h1 : ¬email = "")
    (hu : mapGet users email = some user)
    (hc : user.currentChallenge = some r.challenge)
    (hd : user.devices.find? (fun d => d.credentialID = r.id) = some device)
    (ht : r.typ = "webauthn.get") (ho : r.origin = Part002.origin)
    (ha : r.authDataValid = true) (hs : r.signatureValid = true)
    (hN : 0 < device.counter) :
    (r.counter ≤ device.counter →
        Part002.verifyAuthentication users email (some r) =
          (users, .rejected .PossibleCloneDetected) ∧
        counterOf users email r.id = some device.counter) ∧
    (device.counter < r.counter →
        (Part002.verifyAuthentication users email (some r)).2 = .verified email ∧
        counterOf (Part002.verifyAuthentication users email (some r)).1 email r.id =
          some r.counter) := by
  constructor
  · intro hle
    have hk : counterOk r.counter device.counter = false := by
      simp only [counterOk, Bool.or_eq_false_iff, Bool.and_eq_false_iff,
        decide_eq_false_iff_not]
      omega
    have hv := verifyAuthenticationResponse_clone r r.challenge Part002.origin device
      ht rfl ho ha hs hk
    rw [verifyAuthentication_run users email r user device h1 hu hc hd, hv]
    exact ⟨rfl, by simp [counterOf, hu, hd]⟩
  · intro hlt
    have hk : counterOk r.counter device.counter = true := by
      simp only [counterOk, Bool.or_eq_true, decide_eq_true_eq]
      right
      exact hlt
    have hv := verifyAuthenticationResponse_ok r r.challenge Part002.origin device
      ht rfl ho ha hs hk
    rw [verifyAuthentication_run users email r user device h1 hu hc hd, hv]
    refine ⟨rfl, ?_⟩
    simp [counterOf, mapGet_mapSet_self,
      find?_setCounterFirst user.devices r.id r.counter device hd]

/-- C2 witness: a credential stored at counter 5 rejects a response
reporting counter 3 with PossibleCloneDetected and keeps counter 5. -/
theorem C2_counter_monotonicity_witness :
    Part002.verifyAuthentication demoUsers5 "a@x.com"
        (some ⟨[1], "webauthn.get", [9], "https://axltest.lat", true, true, 3⟩) =
      (demoUsers5, .rejected .PossibleCloneDetected) ∧
    counterOf demoUsers5 "a@x.com" [1] = some 5 :=
  (C2_counter_monotonicity demoUsers5 "a@x.com"
      ⟨[1], "webauthn.get", [9], "https://axltest.lat", true, true, 3⟩
      ⟨"u1", "a@x.com", [⟨[1], [2], 5⟩], some [9]⟩ ⟨[1], [2], 5⟩
      (by decide) (by decide) (by decide) (by decide)
      (by decide) (by decide) (by decide) (by decide) (by decide)).1
    (by decide)

/-- C4 counterexample: the backend stores a single untyped
currentChallenge, so a challenge issued by
POST /generate-registration-options (ceremony kind Registration) DOES
validate a well-formed authentication response submitted to
POST /verify-authentication; no ChallengeKindMismatch error exists in
the code. -/
theorem C4_registration_challenge_validates_authentication :
    (Part002.verifyAuthentication
        (Part002.generateRegistrationOptions demoUsersIdle "a@x.com" "u2" [5]).1
        "a@x.com"
        (some ⟨[1], "webauthn.get", [5], "https://axltest.lat", true, true, 1⟩)).2 =
      .verified "a@x.com" := by
  decide

/-- C4 amended: the pending challenge carries no ceremony kind.  The
terminal steps check only the response payload itself (clientData type,
challenge bytes, origin, signature), so a challenge issued by
begin_registration validates an otherwise well-formed authentication
response, and a challenge issued by begin_authentication validates an
otherwise well-formed registration response; no ChallengeKindMismatch
failure exists. -/
theorem C4_amended_challenge_kind_not_tracked (users : Users) (email uid : String)
    (ch : Bytes) (user : User) (device : Device) (ra : AuthResponse) (rr : RegResponse)
    (h1 : ¬email = "")
    (hu : mapGet users email = some user)
    (hd : user.devices.find? (fun d => d.credentialID = ra.id) = some device)
    (hdev : ¬user.devices.length = 0)
    (hra : ra.typ = "webauthn.get" ∧ ra.challenge = ch ∧ ra.origin = Part002.origin ∧
        ra.authDataValid = true ∧ ra.signatureValid = true ∧
        counterOk ra.counter device.counter = true)
    (hrr : rr.typ = "webauthn.create" ∧ rr.challenge = ch ∧ rr.origin = Part002.origin ∧
        rr.authDataValid = true ∧ rr.attestationValid = true) :
    (Part002.verifyAuthentication
        (Part002.generateRegistrationOptions users email uid ch).1 email (some ra)).2 =
      .verified email ∧
    (Part002.verifyRegistration
        (Part002.generateAuthenticationOptions users email ch).1 email (some rr)).2 =
      .verified := by
  obtain ⟨ht, hch, ho, ha, hs, hk⟩ := hra
  obtain ⟨gt, gch, go, ga, gb⟩ := hrr
  constructor
  · rw [generateRegistrationOptions_existing users email uid ch user h1 hu]
    rw [verifyAuthentication_run (mapSet users email { user with currentChallenge := some ch })
          email ra { user with currentChallenge := some ch } device h1
          (mapGet_mapSet_self users email { user with currentChallenge := some ch })
          (by simp [hch]) hd]
    rw [verifyAuthenticationResponse_ok ra ra.challenge Part002.origin device
          ht rfl ho ha hs hk]
  · rw [generateAuthenticationOptions_existing users email ch user h1 hu hdev]
    rw [verifyRegistration_run (mapSet users email { user with currentChallenge := some ch })
          email rr { user with currentChallenge := some ch } ch h1
          (mapGet_mapSet_self users email { user with currentChallenge := some ch })
          rfl]
    rw [verifyRegistrationResponse_ok rr ch Part002.origin gt gch go ga gb]

/-- C4 amended witness: concrete cross-kind runs both verify. -/
theorem C4_amended_witness :
    (Part002.verifyAuthentication
        (Part002.generateRegistrationOptions demoUsersIdle "a@x.com" "u2" [5]).1
        "a@x.com"
        (some ⟨[1], "webauthn.get", [5], "https://axltest.lat", true, true, 1⟩)).2 =
      .verified "a@x.com" ∧
    (Part002.verifyRegistration
        (Part002.generateAuthenticationOptions demoUsersIdle "a@x.com" [5]).1
        "a@x.com"
        (some ⟨"webauthn.create", [5], "https://axltest.lat", true, true, [3], [4], 0⟩)).2 =
      .verified :=
  C4_amended_challenge_kind_not_tracked demoUsersIdle "a@x.com" "u2" [5]
    ⟨"u1", "a@x.com", [⟨[1], [2], 0⟩], none⟩ ⟨[1], [2], 0⟩
    ⟨[1], "webauthn.get", [5], "https://axltest.lat", true, true, 1⟩
    ⟨"webauthn.create", [5], "https://axltest.lat", true, true, [3], [4], 0⟩
    (by decide) (by decide) (by decide) (by decide) (by decide) (by decide)

/-- C5 counterexample: the persist step of verify-registration performs
no duplicate check.  With credential id [1] already stored under
b@x.com, a successful registration of credential id [1] for a@x.com
reports verified and leaves two credentials with id [1] in the store;
no DuplicateCredential error exists in the code. -/
theorem C5_duplicate_credential_id_stored_twice :
    (Part002.verifyRegistration demoUsersDup "a@x.com"
        (some ⟨"webauthn.create", [9], "https://axltest.lat", true, true, [1], [3], 0⟩)).2 =
      .verified ∧
    credIdCount
        (Part002.verifyRegistration demoUsersDup "a@x.com"
          (some ⟨"webauthn.create", [9], "https://axltest.lat", true, true, [1], [3], 0⟩)).1
        [1] = 2 ∧
    credIdCount demoUsersDup [1] = 1 := by
  decide

/-- C5 amended: a successful verify-registration appends the new
credential to the identity's device list unconditionally, regardless of
whether its credential id already exists anywhere in the store, and
leaves every other identity's credentials unchanged; there is no
DuplicateCredential failure. -/
theorem C5_amended_insert_appends_unconditionally (users : Users) (email : String)
    (r : RegResponse)
    (h : (Part002.verifyRegistration users email (some r)).2 = .verified) :
    devicesOf (Part002.verifyRegistration users email (some r)).1 email =
      devicesOf users email ++ [⟨r.credentialID, r.credentialPublicKey, r.counter⟩] ∧
    ∀ e2, e2 ≠ email →
      devicesOf (Part002.verifyRegistration users email (some r)).1 e2 =
        devicesOf users e2 := by
  obtain ⟨h1, user, hu, hc, ht, ho, ha, hb, hst⟩ :=
    verifyRegistration_verified_inv users email r h
  constructor
  · rw [hst]
    simp [devicesOf, mapGet_mapSet_self, hu]
  · intro e2 hne
    rw [hst]
    simp [devicesOf, mapGet_mapSet_ne users email e2 _ hne]

/-- C5 amended witness: the concrete duplicate registration appends. -/
theorem C5_amended_witness :
    devicesOf
        (Part002.verifyRegistration demoUsersDup "a@x.com"
          (some ⟨"webauthn.create", [9], "https://axltest.lat", true, true, [1], [3], 0⟩)).1
        "a@x.com" =
      devicesOf demoUsersDup "a@x.com" ++ [⟨[1], [3], 0⟩] :=
  (C5_amended_insert_appends_unconditionally demoUsersDup "a@x.com"
      ⟨"webauthn.create", [9], "https://axltest.lat", true, true, [1], [3], 0⟩
      (by decide)).1

/-- C6: two begin_registration calls in a row leave only the second
challenge valid: a response computed over the first challenge is
rejected with the challenge-mismatch error ClientDataInvalid, an
otherwise valid response over the second challenge verifies, and any
response that verifies necessarily carries the second challenge. -/
theorem C6_second_begin_registration_supersedes (users : Users)
    (email uid1 uid2 : String) (ch1 ch2 : Bytes) (r1 r2 : RegResponse)
    (h1 : ¬email = "") (hne : ch1 ≠ ch2)
    (hr1 : r1.challenge = ch1)
    (hr2 : r2.typ = "webauthn.create" ∧ r2.challenge = ch2 ∧ r2.origin = Part002.origin ∧
        r2.authDataValid = true ∧ r2.attestationValid = true) :
    (Part002.verifyRegistration
        (Part002.generateRegistrationOptions
          (Part002.generateRegistrationOptions users email uid1 ch1).1 email uid2 ch2).1
        email (some r1)).2 = .rejected .ClientDataInvalid ∧
    (Part002.verifyRegistration
        (Part002.generateRegistrationOptions
          (Part002.generateRegistrationOptions users email uid1 ch1).1 email uid2 ch2).1
        email (some r2)).2 = .verified ∧
    (∀ r : RegResponse,
        (Part002.verifyRegistration
            (Part002.generateRegistrationOptions
              (Part002.generateRegistrationOptions users email uid1 ch1).1 email uid2 ch2).1
            email (some r)).2 = .verified →
        r.challenge = ch2) := by
  obtain ⟨u2, hg2, hc2⟩ :=
    beginReg_then_get (Part002.generateRegistrationOptions users email uid1 ch1).1
      email uid2 ch2 h1
  refine ⟨?_, ?_, ?_⟩
  · rw [verifyRegistration_run _ email r1 u2 ch2 h1 hg2 hc2]
    rw [verifyRegistrationResponse_challenge_mismatch r1 ch2 Part002.origin
          (by rw [hr1]; exact hne)]
  · rw [verifyRegistration_run _ email r2 u2 ch2 h1 hg2 hc2]
    rw [verifyRegistrationResponse_ok r2 ch2 Part002.origin
          hr2.1 hr2.2.1 hr2.2.2.1 hr2.2.2.2.1 hr2.2.2.2.2]
  · intro r hr
    obtain ⟨_, user3, hu3, hch3, _⟩ := verifyRegistration_verified_inv _ email r hr
    rw [hg2] at hu3
    injection hu3 with h4
    subst h4
    rw [hc2] at hch3
    injection hch3 with h5
    exact h5.symm

/-- C6 witness: concrete double begin_registration; the stale response
is rejected with ClientDataInvalid. -/
theorem C6_witness :
    (Part002.verifyRegistration
        (Part002.generateRegistrationOptions
          (Part002.generateRegistrationOptions demoUsersIdle "a@x.com" "x" [5]).1
          "a@x.com" "y" [6]).1
        "a@x.com"
        (some ⟨"webauthn.create", [5], "https://axltest.lat", true, true, [7], [8], 0⟩)).2 =
      .rejected .ClientDataInvalid :=
  (C6_second_begin_registration_supersedes demoUsersIdle "a@x.com" "x" "y" [5] [6]
      ⟨"webauthn.create", [5], "https://axltest.lat", true, true, [7], [8], 0⟩
      ⟨"webauthn.create", [6], "https://axltest.lat", true, true, [7], [8], 0⟩
      (by decide) (by decide) (by decide) (by decide)).1

/-- C7: on a successful verify-authentication whose response reports
signature counter 0, the stored counter is unchanged (it was
necessarily 0 and remains 0, since the modelled clone guard only lets a
zero received counter pass against a zero stored counter); in general a
successful verify-authentication sets the stored counter to the
received value, so it changes only when the received value is
nonzero. -/
theorem C7_zero_counter_leaves_store_unchanged (users : Users) (email : String)
    (r : AuthResponse)
    (h : (Part002.verifyAuthentication users email (some r)).2 = .verified email) :
    (r.counter = 0 →
        counterOf (Part002.verifyAuthentication users email (some r)).1 email r.id =
          counterOf users email r.id ∧
        counterOf users email r.id = some 0) ∧
    counterOf (Part002.verifyAuthentication users email (some r)).1 email r.id =
      some r.counter := by
  obtain ⟨he2, h1, user, device, hu, hc, hd, ht, ho, ha, hs, hk, hst⟩ :=
    verifyAuthentication_verified_inv users email r email h
  have hnew : counterOf (Part002.verifyAuthentication users email (some r)).1 email r.id =
      some r.counter := by
    rw [hst]
    simp [counterOf, mapGet_mapSet_self,
      find?_setCounterFirst user.devices r.id r.counter device hd]
  refine ⟨?_, hnew⟩
  intro h0
  rw [h0] at hk
  have hdc : device.counter = 0 := by
    simp only [counterOk, Bool.or_eq_true, Bool.and_eq_true, decide_eq_true_eq] at hk
    omega
  have hold : counterOf users email r.id = some 0 := by
    simp [counterOf, hu, hd, hdc]
  exact ⟨by rw [hnew, h0, hold], hold⟩

/-- C7 witness: a counter-0 authenticator authenticates and the stored
counter stays 0. -/
theorem C7_witness :
    counterOf
        (Part002.verifyAuthentication demoUsers0 "a@x.com"
          (some ⟨[1], "webauthn.get", [9], "https://axltest.lat", true, true, 0⟩)).1
        "a@x.com" [1] = some 0 :=
  (C7_zero_counter_leaves_store_unchanged demoUsers0 "a@x.com"
      ⟨[1], "webauthn.get", [9], "https://axltest.lat", true, true, 0⟩ (by decide)).2

/-- C8 counterexample: in the second server variant of
src/unnamed/part_004, an unknown identity and an identity with zero
credentials receive different error bodies from
POST /generate-authentication-options, so the two runs are
distinguishable by the caller. -/
theorem C8_part004_distinguishes_unknown_from_empty :
    (Part004.generateAuthenticationOptions [] "a@x.com" [5]).2 =
      .err 404 "Usuario no registrado" ∧
    (Part004.generateAuthenticationOptions
        [("a@x.com", ⟨"u1", "a@x.com", [], none⟩)] "a@x.com" [5]).2 =
      .err 404 "Usuario no tiene dispositivos registrados" ∧
    (BeginAuthResult.err 404 "Usuario no registrado" ≠
      .err 404 "Usuario no tiene dispositivos registrados") := by
  decide

/-- C8 amended: in src/unnamed/part_002 the two cases are
indistinguishable (identical status 404 and identical body), while the
part_004 variant answers 404 in both cases but with different bodies. -/
theorem C8_amended_part002_uniform_404 (users : Users) (email : String) (ch : Bytes)
    (h1 : ¬email = "") :
    (mapGet users email = none →
        Part002.generateAuthenticationOptions users email ch =
          (users, .err 404 "Usuario no registrado") ∧
        Part004.generateAuthenticationOptions users email ch =
          (users, .err 404 "Usuario no registrado")) ∧
    (∀ u, mapGet users email = some u → u.devices = [] →
        Part002.generateAuthenticationOptions users email ch =
          (users, .err 404 "Usuario no registrado") ∧
        Part004.generateAuthenticationOptions users email ch =
          (users, .err 404 "Usuario no tiene dispositivos registrados")) := by
  constructor
  · intro hnone
    constructor
    · unfold Part002.generateAuthenticationOptions
      rw [if_neg h1]
      simp [hnone]
    · unfold Part004.generateAuthenticationOptions
      simp [hnone]
  · intro u hu hdev
    constructor
    · unfold Part002.generateAuthenticationOptions
      rw [if_neg h1]
      simp [hu, hdev]
    · unfold Part004.generateAuthenticationOptions
      simp [hu, hdev]

/-- C8 amended witness: unknown identity gets the same 404 from both
variants. -/
theorem C8_amended_witness :
    Part002.generateAuthenticationOptions [] "a@x.com" [5] =
      ([], .err 404 "Usuario no registrado") ∧
    Part004.generateAuthenticationOptions [] "a@x.com" [5] =
      ([], .err 404 "Usuario no registrado") :=
  (C8_amended_part002_uniform_404 [] "a@x.com" [5] (by decide)).1 (by decide)

end WebauthnDemo
